import Mathlib

/-
Verification of the sidecar-executor repository (src/main.go, src/log_relay.go).

The Go source is shallowly embedded: each function of interest becomes a pure
Lean function over an explicit environment describing what the external world
(the Docker runtime, the Sidecar HTTP endpoint, the Mesos driver) returns at
each call site.  Side effects that the claims talk about (status reports,
sleeps, driver stop, container runtime calls) are recorded as events in a
trace.
-/

namespace SidecarExec

/- Constants from src/main.go lines 28-35. -/

def KillTaskTimeout : Nat := 5

def SidecarRetryCount : Nat := 5

/- SidecarRetryDelay is declared in the source (3 seconds) but the retry loop
in sidecarStatus (src/main.go lines 223-228) never sleeps, so the constant is
recorded here only for reference. -/
def SidecarRetryDelaySeconds : Nat := 3

/- Status constants of the external sidecar service package.  Only their
pairwise distinctness and the identity of UNHEALTHY and TOMBSTONE are
observable in src/main.go (line 263), so they are modelled as distinct
naturals. -/

def ALIVE : Nat := 0

def TOMBSTONE : Nat := 1

def UNHEALTHY : Nat := 2

/- The parsed JSON structure SidecarServices (src/main.go lines 43-47):
an object keyed by hostname, each value holding services keyed by short
container id, each value carrying a status.  Go maps become association
lists. -/

structure Service where
  Status : Nat
deriving DecidableEq

structure Server where
  Services : List (String × Service)
deriving DecidableEq

structure SidecarServices where
  Servers : List (String × Server)
deriving DecidableEq

/- One invocation of the local fetch closure in sidecarStatus
(src/main.go lines 205-218).  The environment decides, for each attempt,
what the HTTP Get and the body read do:
  - getError: httpClient.Get returns a non-nil error, so resp is nil.
    The source runs defer resp.Body.Close() before checking err, so
    evaluating resp.Body dereferences a nil pointer and the call panics.
  - readError: Get succeeds but reading the body fails; fetch returns
    (nil, err).
  - ok parsed: a body is obtained and fetch returns (body, nil); the
    payload records what json.Unmarshal later yields for that body
    (none = the body does not parse). -/

inductive AttemptOutcome
  | getError
  | readError
  | ok (parsed : Option SidecarServices)
deriving DecidableEq

/- The mutable loop state of the retry loop (src/main.go lines 221-228):
var data []byte (none = nil) and whether err is non-nil. -/

structure FetchLoopState where
  data : Option (Option SidecarServices)
  err : Bool
deriving DecidableEq

inductive LoopOutcome
  | panicked
  | done (st : FetchLoopState)
deriving DecidableEq

/- The retry loop body: for i := 0; i < SidecarRetryCount; i++ {
data, err = fetch(); if err != nil { continue } }.  Note that the loop
never breaks on success: every iteration overwrites data and err, and the
continue statement is the last statement of the body.  A getError attempt
panics the whole call (nil response dereference inside fetch). -/

def fetchLoopGo : List AttemptOutcome → FetchLoopState → LoopOutcome
  | [], st => .done st
  | a :: rest, _ =>
    match a with
    | .getError => .panicked
    | .readError => fetchLoopGo rest ⟨none, true⟩
    | .ok parsed => fetchLoopGo rest ⟨some parsed, false⟩

/- The number of fetch() invocations the loop performs (a panicking
invocation is still an invocation). -/

def fetchCallsGo : List AttemptOutcome → Nat → Nat
  | [], n => n
  | a :: rest, n =>
    match a with
    | .getError => n + 1
    | .readError => fetchCallsGo rest (n + 1)
    | .ok _ => fetchCallsGo rest (n + 1)

/- The attempt outcomes actually consumed by one poll: the i-th loop
iteration calls fetch in the environment described by attempts i. -/

def attemptList (attempts : Nat → AttemptOutcome) : List AttemptOutcome :=
  (List.range SidecarRetryCount).map attempts

def fetchCalls (attempts : Nat → AttemptOutcome) : Nat :=
  fetchCallsGo (attemptList attempts) 0

/- The state an iteration leaves behind when its attempt does not panic. -/

def stepState : AttemptOutcome → FetchLoopState
  | .getError => ⟨none, false⟩
  | .readError => ⟨none, true⟩
  | .ok parsed => ⟨some parsed, false⟩

/- Result of one sidecarStatus call: the function either panics (nil
response dereference), returns a non-nil error, or returns nil. -/

inductive Outcome
  | panic
  | err (msg : String)
  | ok
deriving DecidableEq

def shortId (containerId : String) : String := containerId.take 12

def unhealthyMsg (containerId : String) : String :=
  "Unhealthy container: " ++ containerId ++ " failing task!"

/- sidecarStatus (src/main.go lines 204-268).  After the retry loop: a
non-nil err is logged and nil is returned (assume healthy); a body that
fails to unmarshal is logged and nil is returned; an absent host
(TASK_HOST) or absent service entry is logged and nil is returned; only a
present entry whose status is UNHEALTHY or TOMBSTONE returns an error. -/

def sidecarStatus (attempts : Nat → AttemptOutcome)
    (hostname containerId : String) : Outcome :=
  match fetchLoopGo (attemptList attempts) ⟨none, false⟩ with
  | .panicked => .panic
  | .done st =>
    if st.err then .ok
    else
      match st.data with
      | none => .ok
      | some none => .ok
      | some (some services) =>
        match services.Servers.lookup hostname with
        | none => .ok
        | some server =>
          match server.Services.lookup (shortId containerId) with
          | none => .ok
          | some svc =>
            if svc.Status == UNHEALTHY || svc.Status == TOMBSTONE then
              .err (unhealthyMsg containerId)
            else .ok

/- Task states (src/main.go lines 21-26) as reported through sendStatus. -/

inductive TaskState
  | running
  | finished
  | failed
  | killed
deriving DecidableEq

def TaskState.isTerminal : TaskState → Bool
  | .running => false
  | _ => true

/- Observable events of the executor, in program order.  startLogRelay is
the (hypothetical) start of the relayLogs pump of src/log_relay.go; no
function in src/main.go ever invokes it, so no trace below contains it. -/

inductive Event
  | writeTaskInfo
  | report (s : TaskState)
  | pullImage
  | createContainer
  | startContainer
  | startWatcher
  | startMonitor
  | startLogRelay
  | sleepSec (n : Nat)
  | driverStop
  | stopContainer (id : String) (timeoutSec : Nat)
  | inspectContainer (id : String)
deriving DecidableEq

def isReport : Event → Bool
  | .report _ => true
  | _ => false

def isTerminalReport : Event → Bool
  | .report s => s.isTerminal
  | _ => false

def countTerminal (t : List Event) : Nat :=
  (t.filter isTerminalReport).length

/- After the first terminal report, no further report of any state. -/

def noReportAfterTerminal : List Event → Bool
  | [] => true
  | e :: rest =>
    if isTerminalReport e then rest.all (fun x => !(isReport x))
    else noReportAfterTerminal rest

/- Every driverStop is preceded by a terminal report followed by a sleep:
phase 0 = no terminal report yet, phase 1 = terminal reported, phase 2 =
the grace sleep after the terminal report has happened. -/

def stopsDelayedAux : Nat → List Event → Bool
  | _, [] => true
  | phase, e :: rest =>
    match e with
    | .driverStop => phase == 2 && stopsDelayedAux phase rest
    | .sleepSec _ => stopsDelayedAux (if phase == 1 then 2 else phase) rest
    | .report s =>
      stopsDelayedAux (if s.isTerminal && phase == 0 then 1 else phase) rest
    | _ => stopsDelayedAux phase rest

def stopsProperlyDelayed (t : List Event) : Bool :=
  stopsDelayedAux 0 t

/- finishTask (src/main.go lines 152-156) and failTask (lines 159-168):
report the terminal state, sleep one second, stop the driver. -/

def finishTaskTrace : List Event :=
  [.report .finished, .sleepSec 1, .driverStop]

def failTaskTrace : List Event :=
  [.report .failed, .sleepSec 1, .driverStop]

/- The goroutine of LaunchTask (src/main.go lines 133-148) that waits on
the looper: an error from looper.Wait leads to failTask, a clean exit to
finishTask.  watchResult is the value looper.Wait returns. -/

def monitorTrace : Option String → List Event
  | some _ => failTaskTrace
  | none => finishTaskTrace

/- Environment of one LaunchTask call (src/main.go lines 93-149):
whether the task spec forces an image pull, whether CreateContainer and
StartContainer return errors, and what looper.Wait eventually returns. -/

structure LaunchEnv where
  forcePull : Bool
  createErr : Bool
  startErr : Bool
  watchResult : Option String
deriving DecidableEq

/- LaunchTask in program order: write /tmp/taskinfo.json, report Running,
optionally pull the image, create the container (on error: failTask and
return), start it (on error: failTask and return), start the watch loop
and the monitor goroutine, then follow the monitor outcome.  relayLogs is
never started (it has no caller in src/main.go). -/

def launchTrace (env : LaunchEnv) : List Event :=
  [Event.writeTaskInfo, Event.report .running]
  ++ (if env.forcePull then [Event.pullImage] else [])
  ++ [Event.createContainer]
  ++ (if env.createErr then failTaskTrace
      else [Event.startContainer]
        ++ (if env.startErr then failTaskTrace
            else [Event.startWatcher, Event.startMonitor]
              ++ monitorTrace env.watchResult))

/- Environment of one KillTask call (src/main.go lines 270-297): the task
id string, whether StopContainer errors (only logged), and the result of
InspectContainer (some exitCode, or none when inspection fails). -/

structure KillEnv where
  taskId : String
  stopErr : Bool
  inspect : Option Int
deriving DecidableEq

/- var status int64 = TaskKilled; status becomes TaskFinished only when
InspectContainer succeeds and State.ExitCode == 0. -/

def killStatus : Option Int → TaskState
  | some code => if code = 0 then .finished else .killed
  | none => .killed

/- KillTask in program order: StopContainer(taskId, KillTaskTimeout)
(error only logged), InspectContainer(taskId), report the classified
state, sleep one second, stop the driver.  Both runtime calls receive the
Mesos task id string, not the container id recorded at launch. -/

def killTrace (env : KillEnv) : List Event :=
  [Event.stopContainer env.taskId KillTaskTimeout,
   Event.inspectContainer env.taskId,
   Event.report (killStatus env.inspect),
   Event.sleepSec 1,
   Event.driverStop]

/- Order-preserving interleaving of two concurrent event sequences. -/

inductive Interleave : List Event → List Event → List Event → Prop
  | nil : Interleave [] [] []
  | left {x : Event} {xs ys zs : List Event} :
      Interleave xs ys zs → Interleave (x :: xs) ys (x :: zs)
  | right {y : Event} {xs ys zs : List Event} :
      Interleave xs ys zs → Interleave xs (y :: ys) (y :: zs)

/- A task lifecycle: either a launch that runs to its monitor outcome
with no kill request, a kill request alone, or a launch raced by a kill
request (the source notes this race itself: the KillTask path never stops
the watch looper, see the TODO at src/main.go lines 126-127). -/

inductive LifecycleTrace : List Event → Prop
  | launchOnly (env : LaunchEnv) : LifecycleTrace (launchTrace env)
  | killOnly (env : KillEnv) : LifecycleTrace (killTrace env)
  | launchAndKill (lenv : LaunchEnv) (kenv : KillEnv) (t : List Event) :
      Interleave (launchTrace lenv) (killTrace kenv) t → LifecycleTrace t

/- One entry of the Docker ListContainers(All: true) result: the id and
whether the container is currently running.  The listing with All: true
also contains exited containers. -/

structure ContainerEntry where
  id : String
  running : Bool
deriving DecidableEq

inductive ListResult
  | err (msg : String)
  | ok (containers : List ContainerEntry)
deriving DecidableEq

def notRunningMsg (containerId : String) : String :=
  "Container " ++ containerId ++ " not running!"

/- One iteration of the watchContainer loop body (src/main.go lines
173-201): list all containers (an error is returned as the loop error);
if no entry has the target id, return the not-running error; otherwise
defer to sidecarStatus. -/

def watchIteration (listResult : ListResult)
    (attempts : Nat → AttemptOutcome) (hostname containerId : String) :
    Outcome :=
  match listResult with
  | .err e => .err e
  | .ok containers =>
    if !(containers.any fun entry => entry.id == containerId) then
      .err (notRunningMsg containerId)
    else sidecarStatus attempts hostname containerId

/- The looper runs the iteration body until one returns a non-ok
outcome: the first fault, if any, is what looper.Wait sees. -/

def firstFault (rs : List Outcome) : Option Outcome :=
  rs.find? (fun r => r != .ok)

/- Log relay (src/log_relay.go).  A pump forwards each scanned line at
the severity chosen by the stream name, then checks the shared quit
channel (quit k tells whether the channel is ready at the k-th check); an
unknown stream name returns before forwarding anything. -/

inductive LogLevel
  | info
  | error
deriving DecidableEq

def handleOneStreamGo (name : String) (quit : Nat → Bool) :
    List String → Nat → List (LogLevel × String)
  | [], _ => []
  | text :: rest, k =>
    if name = "stdout" then
      (LogLevel.info, text) ::
        (if quit k then [] else handleOneStreamGo name quit rest (k + 1))
    else if name = "stderr" then
      (LogLevel.error, text) ::
        (if quit k then [] else handleOneStreamGo name quit rest (k + 1))
    else []

def handleOneStream (name : String) (quit : Nat → Bool)
    (lines : List String) : List (LogLevel × String) :=
  handleOneStreamGo name quit lines 0

/- relayLogs (src/log_relay.go lines 43-61) starts exactly two pumps, on
separate pipes, sharing only the quit channel; each observes the channel
at its own checkpoints. -/

def relayPumps (quitOut quitErr : Nat → Bool)
    (outLines errLines : List String) :
    List (LogLevel × String) × List (LogLevel × String) :=
  (handleOneStream "stdout" quitOut outLines,
   handleOneStream "stderr" quitErr errLines)

/- A concrete registry snapshot used by closed instances below. -/

def sampleServices : SidecarServices :=
  ⟨[("host-a", ⟨[("abc123456789", ⟨UNHEALTHY⟩)]⟩)]⟩

/- Helper lemmas -/

theorem string_data_append (a b : String) : (a ++ b).data = a.data ++ b.data := rfl

theorem unhealthy_ne_notRunning (c : String) :
    unhealthyMsg c ≠ notRunningMsg c := by
  intro h
  have hd := congrArg String.data h
  simp only [unhealthyMsg, notRunningMsg, string_data_append] at hd
  have hl := congrArg List.length hd
  simp [List.length_append] at hl

/- Any error sidecarStatus returns carries the unhealthy-container
message built from the container id. -/

theorem sidecarStatus_err_eq {attempts : Nat → AttemptOutcome}
    {hostname containerId m : String}
    (he : sidecarStatus attempts hostname containerId = .err m) :
    m = unhealthyMsg containerId := by
  unfold sidecarStatus at he
  repeat' split at he
  all_goals simp_all

theorem sidecarStatus_ne_notRunning (attempts : Nat → AttemptOutcome)
    (hostname containerId : String) :
    sidecarStatus attempts hostname containerId ≠
      .err (notRunningMsg containerId) := by
  intro h
  exact unhealthy_ne_notRunning containerId (sidecarStatus_err_eq h).symm

theorem killStatus_isTerminal (i : Option Int) :
    (killStatus i).isTerminal = true := by
  rcases i with _ | code
  · rfl
  · by_cases hc : code = 0 <;> simp [killStatus, hc, TaskState.isTerminal]

theorem interleave_nil_left (r : List Event) : Interleave [] r r := by
  induction r with
  | nil => exact .nil
  | cons y ys ih => exact .right ih

theorem interleave_append (l r : List Event) : Interleave l r (l ++ r) := by
  induction l with
  | nil => exact interleave_nil_left r
  | cons x xs ih => exact .left ih

theorem fetchCallsGo_le (as : List AttemptOutcome) (n : Nat) :
    fetchCallsGo as n ≤ n + as.length := by
  induction as generalizing n with
  | nil => simp [fetchCallsGo]
  | cons a rest ih =>
    cases a with
    | getError => simp only [fetchCallsGo, List.length_cons]; omega
    | readError =>
      have := ih (n + 1)
      simp only [fetchCallsGo, List.length_cons]
      omega
    | ok p =>
      have := ih (n + 1)
      simp only [fetchCallsGo, List.length_cons]
      omega

theorem fetchCallsGo_eq (as : List AttemptOutcome) (n : Nat)
    (hnp : ∀ a ∈ as, a ≠ .getError) :
    fetchCallsGo as n = n + as.length := by
  induction as generalizing n with
  | nil => simp [fetchCallsGo]
  | cons a rest ih =>
    cases a with
    | getError => exact absurd rfl (hnp _ (by simp))
    | readError =>
      have := ih (n + 1) (fun x hx => hnp x (by simp [hx]))
      simp only [fetchCallsGo, List.length_cons]
      omega
    | ok p =>
      have := ih (n + 1) (fun x hx => hnp x (by simp [hx]))
      simp only [fetchCallsGo, List.length_cons]
      omega

theorem fetchLoopGo_append_last (as : List AttemptOutcome) (a : AttemptOutcome)
    (st : FetchLoopState) (hnp : ∀ x ∈ as, x ≠ .getError)
    (ha : a ≠ .getError) :
    fetchLoopGo (as ++ [a]) st = .done (stepState a) := by
  induction as generalizing st with
  | nil =>
    cases a with
    | getError => exact absurd rfl ha
    | readError => rfl
    | ok p => rfl
  | cons x xs ih =>
    cases x with
    | getError => exact absurd rfl (hnp _ (by simp))
    | readError =>
      simpa [fetchLoopGo] using
        ih ⟨none, true⟩ (fun y hy => hnp y (List.mem_cons_of_mem _ hy))
    | ok p =>
      simpa [fetchLoopGo] using
        ih ⟨some p, false⟩ (fun y hy => hnp y (List.mem_cons_of_mem _ hy))

/-- C1: when a poll obtains a response body (the retry loop ends with a
body and no pending error), sidecarStatus returns an error exactly when
the parsed snapshot contains the current host and, under it, the
container short id, with status UNHEALTHY or TOMBSTONE; in every other
case (unparsable body, absent host, absent service, other status) it
returns nil. -/
theorem sidecar_unhealthy_iff (attempts : Nat → AttemptOutcome)
    (hostname containerId : String) (parsed : Option SidecarServices)
    (h : fetchLoopGo (attemptList attempts) ⟨none, false⟩ =
      .done ⟨some parsed, false⟩) :
    (sidecarStatus attempts hostname containerId = .ok ∨
      sidecarStatus attempts hostname containerId =
        .err (unhealthyMsg containerId)) ∧
    (sidecarStatus attempts hostname containerId =
        .err (unhealthyMsg containerId) ↔
      ∃ services server svc,
        parsed = some services ∧
        services.Servers.lookup hostname = some server ∧
        server.Services.lookup (shortId containerId) = some svc ∧
        (svc.Status = UNHEALTHY ∨ svc.Status = TOMBSTONE)) := by
  have hmain : sidecarStatus attempts hostname containerId =
      (match parsed with
       | none => Outcome.ok
       | some services =>
         match services.Servers.lookup hostname with
         | none => Outcome.ok
         | some server =>
           match server.Services.lookup (shortId containerId) with
           | none => Outcome.ok
           | some svc =>
             if svc.Status == UNHEALTHY || svc.Status == TOMBSTONE then
               Outcome.err (unhealthyMsg containerId)
             else Outcome.ok) := by
    unfold sidecarStatus
    simp only [h]
    cases parsed <;> rfl
  rw [hmain]
  rcases parsed with _ | services
  · simp
  · rcases hl : services.Servers.lookup hostname with _ | server
    · simp [hl]
    · rcases hsvc : server.Services.lookup (shortId containerId) with _ | svc
      · simp [hl, hsvc]
      · cases hst : (svc.Status == UNHEALTHY || svc.Status == TOMBSTONE) with
        | false =>
          have hst' : svc.Status ≠ UNHEALTHY ∧ svc.Status ≠ TOMBSTONE := by
            constructor <;> intro hx <;> simp [hx] at hst
          simp [hl, hsvc, hst, hst'.1, hst'.2]
        | true =>
          have hst' : svc.Status = UNHEALTHY ∨ svc.Status = TOMBSTONE := by
            rcases Bool.or_eq_true_iff.mp hst with hx | hx
            · exact Or.inl (by simpa using hx)
            · exact Or.inr (by simpa using hx)
          simp [hl, hsvc, hst, hst']

/-- Witness for C1 at a concrete unhealthy snapshot. -/
theorem sidecar_unhealthy_iff_witness :
    sidecarStatus (fun _ => .ok (some sampleServices)) "host-a"
        "abc123456789def" = .err (unhealthyMsg "abc123456789def") := by
  have h : fetchLoopGo (attemptList (fun _ => .ok (some sampleServices)))
      ⟨none, false⟩ = .done ⟨some (some sampleServices), false⟩ := rfl
  exact (sidecar_unhealthy_iff (fun _ => .ok (some sampleServices)) "host-a"
    "abc123456789def" (some sampleServices) h).2.mpr
    ⟨sampleServices, ⟨[("abc123456789", ⟨UNHEALTHY⟩)]⟩, ⟨UNHEALTHY⟩,
      rfl, by decide, by decide, Or.inl rfl⟩

/-- C2: the claim says a poll whose fetch attempts all fail returns nil
and never panics; but when the HTTP Get itself fails (registry
unreachable), the source dereferences the nil response in the deferred
Body.Close and the call panics.  This theorem evaluates the model at that
failing input. -/
theorem sidecar_get_error_panics :
    sidecarStatus (fun _ => .getError) "host-a" "abc123456789" =
      .panic := rfl

/-- C6 counterexample: the retry loop does not stop at the first
successful attempt.  With every attempt succeeding, all 5 fetch calls are
still made; and when the first attempt succeeds but later ones fail, the
final loop state keeps the last (failed) attempt, discarding the earlier
success. -/
theorem retry_loop_ignores_success :
    fetchCalls (fun _ => .ok none) = 5 ∧
    fetchCalls (fun _ => .ok none) ≠ 1 ∧
    fetchLoopGo
        (attemptList (fun i => if i = 0 then .ok (some sampleServices)
          else .readError)) ⟨none, false⟩ = .done ⟨none, true⟩ := by
  refine ⟨rfl, by decide, rfl⟩

/-- C6 (amended): per poll the fetch is attempted at most 5 times — and
exactly 5 times whenever no attempt panics, since the loop never breaks
on success and keeps only the final attempt result; the counter is local
to one poll (fetchCalls depends only on that poll's attempts). -/
theorem retry_loop_runs_all_attempts (attempts : Nat → AttemptOutcome) :
    fetchCalls attempts ≤ SidecarRetryCount ∧
    ((∀ i, i < SidecarRetryCount → attempts i ≠ .getError) →
      fetchCalls attempts = SidecarRetryCount ∧
      fetchLoopGo (attemptList attempts) ⟨none, false⟩ =
        .done (stepState (attempts 4))) := by
  have hlen : (attemptList attempts).length = SidecarRetryCount := by
    simp [attemptList]
  constructor
  · have := fetchCallsGo_le (attemptList attempts) 0
    rw [hlen] at this
    simpa [fetchCalls] using this
  · intro hnp
    have hmem : ∀ a ∈ attemptList attempts, a ≠ .getError := by
      intro a ha
      rcases List.mem_map.mp ha with ⟨i, hi, rfl⟩
      exact hnp i (List.mem_range.mp hi)
    constructor
    · have := fetchCallsGo_eq (attemptList attempts) 0 hmem
      rw [hlen] at this
      simpa [fetchCalls] using this
    · have hlist : attemptList attempts =
          [attempts 0, attempts 1, attempts 2, attempts 3] ++ [attempts 4] :=
        rfl
      rw [hlist]
      refine fetchLoopGo_append_last _ _ _ ?_ ?_
      · intro x hx
        apply hmem
        rw [hlist]
        exact List.mem_append_left _ hx
      · exact hnp 4 (by decide)

/-- Witness for C6 (amended) at a poll whose attempts all fail the body
read: exactly 5 fetch calls are made. -/
theorem retry_loop_runs_all_attempts_witness :
    fetchCalls (fun _ => .readError) = SidecarRetryCount :=
  ((retry_loop_runs_all_attempts (fun _ => .readError)).2
    (fun _ _ => by decide)).1

/-- C3 counterexample: a kill request racing the health-watch monitor is
a lifecycle the source allows (KillTask never stops the watch looper),
and in it two terminal states are reported — Failed by the monitor and
Finished by the kill path — with a report occurring after a terminal
report. -/
theorem lifecycle_two_terminal_reports :
    LifecycleTrace (launchTrace ⟨false, false, false, some "watch failed"⟩ ++
      killTrace ⟨"task-1", false, some 0⟩) ∧
    countTerminal (launchTrace ⟨false, false, false, some "watch failed"⟩ ++
      killTrace ⟨"task-1", false, some 0⟩) = 2 ∧
    noReportAfterTerminal
      (launchTrace ⟨false, false, false, some "watch failed"⟩ ++
        killTrace ⟨"task-1", false, some 0⟩) = false := by
  refine ⟨.launchAndKill _ _ _ (interleave_append _ _), rfl, rfl⟩

/-- C3 (amended): every sequential completion path — a launch lifecycle
not raced by a kill, or a kill handler invocation — reports exactly one
terminal state, reports nothing after it, and stops the driver only
after the grace sleep that follows the terminal report; only the
kill-versus-monitor race (see the counterexample) can duplicate the
terminal report. -/
theorem sequential_paths_single_terminal (lenv : LaunchEnv) (kenv : KillEnv) :
    countTerminal (launchTrace lenv) = 1 ∧
    noReportAfterTerminal (launchTrace lenv) = true ∧
    stopsProperlyDelayed (launchTrace lenv) = true ∧
    countTerminal (killTrace kenv) = 1 ∧
    noReportAfterTerminal (killTrace kenv) = true ∧
    stopsProperlyDelayed (killTrace kenv) = true := by
  obtain ⟨fp, ce, se, wr⟩ := lenv
  obtain ⟨tid, serr, insp⟩ := kenv
  have hkill : countTerminal (killTrace ⟨tid, serr, insp⟩) = 1 ∧
      noReportAfterTerminal (killTrace ⟨tid, serr, insp⟩) = true ∧
      stopsProperlyDelayed (killTrace ⟨tid, serr, insp⟩) = true := by
    rcases insp with _ | code
    · refine ⟨rfl, rfl, rfl⟩
    · by_cases hc : code = 0 <;>
        simp [killTrace, killStatus, hc, countTerminal, noReportAfterTerminal,
          stopsProperlyDelayed, stopsDelayedAux, isTerminalReport, isReport,
          TaskState.isTerminal, List.filter]
  cases fp <;> cases ce <;> cases se <;> rcases wr with _ | m <;>
    exact ⟨rfl, rfl, rfl, hkill.1, hkill.2.1, hkill.2.2⟩

/-- C4: KillTask stops the container with the bounded timeout as its
first action, inspects it, reports Finished exactly when the inspected
exit code is 0 and Killed otherwise (including inspection failure), and
always delivers exactly one terminal report followed by the grace sleep
and driver stop, whatever the Stop and Inspect calls do. -/
theorem killTask_classification (tid : String) (stopErr : Bool)
    (inspect : Option Int) :
    (killStatus inspect = .finished ↔ inspect = some 0) ∧
    (killTrace ⟨tid, stopErr, inspect⟩).head? =
      some (.stopContainer tid KillTaskTimeout) ∧
    Event.report (killStatus inspect) ∈ killTrace ⟨tid, stopErr, inspect⟩ ∧
    countTerminal (killTrace ⟨tid, stopErr, inspect⟩) = 1 ∧
    stopsProperlyDelayed (killTrace ⟨tid, stopErr, inspect⟩) = true ∧
    Event.driverStop ∈ killTrace ⟨tid, stopErr, inspect⟩ := by
  rcases inspect with _ | code
  · refine ⟨by simp [killStatus], rfl, by simp [killTrace], rfl, rfl,
      by simp [killTrace]⟩
  · by_cases hc : code = 0 <;>
      refine ⟨by simp [killStatus, hc], rfl, by simp [killTrace], ?_, ?_,
        by simp [killTrace]⟩ <;>
      simp [killTrace, killStatus, hc, countTerminal, stopsProperlyDelayed,
        stopsDelayedAux, isTerminalReport, TaskState.isTerminal, List.filter]

/-- Witness for C4: a kill whose inspection reports exit code 0 reports
Finished. -/
theorem killTask_classification_witness :
    killStatus (some 0) = .finished ∧
    Event.report (killStatus (some 0)) ∈ killTrace ⟨"task-1", false, some 0⟩ := by
  have h := killTask_classification "task-1" false (some 0)
  exact ⟨h.1.mpr rfl, h.2.2.1⟩

/-- C5: given a container listing, the watch iteration raises the
not-running error exactly when no listed entry carries the target id (an
exited container that is still listed passes the check, since only ids
are compared); the looper stops at the first erroring iteration, and a
watch error makes the launch lifecycle report Failed. -/
theorem container_not_running_iff (containers : List ContainerEntry)
    (attempts : Nat → AttemptOutcome) (hostname containerId : String) :
    (watchIteration (.ok containers) attempts hostname containerId =
        .err (notRunningMsg containerId) ↔
      ∀ e ∈ containers, e.id ≠ containerId) ∧
    (∀ wasRunning : Bool,
      watchIteration (.ok [⟨containerId, wasRunning⟩]) attempts hostname
          containerId ≠ .err (notRunningMsg containerId)) ∧
    (∀ env : LaunchEnv, env.watchResult.isSome = true →
      Event.report .failed ∈ launchTrace env) ∧
    (∀ rest : List Outcome, ∀ m : String,
      firstFault (.err m :: rest) = some (.err m)) := by
  refine ⟨?_, ?_, ?_, ?_⟩
  · cases hany : containers.any (fun e => e.id == containerId) with
    | true =>
      constructor
      · intro hres
        have : sidecarStatus attempts hostname containerId =
            .err (notRunningMsg containerId) := by
          simpa [watchIteration, hany] using hres
        exact absurd this (sidecarStatus_ne_notRunning _ _ _)
      · intro habs
        rcases List.any_eq_true.mp hany with ⟨e, he, hbeq⟩
        exact absurd (by simpa using hbeq) (habs e he)
    | false =>
      constructor
      · intro _
        intro e he hid
        have : containers.any (fun x => x.id == containerId) = true :=
          List.any_eq_true.mpr ⟨e, he, by simp [hid]⟩
        rw [hany] at this
        cases this
      · intro _
        simp [watchIteration, hany]
  · intro wasRunning
    have hany : ([⟨containerId, wasRunning⟩] :
        List ContainerEntry).any (fun e => e.id == containerId) = true := by
      simp
    intro hres
    have : sidecarStatus attempts hostname containerId =
        .err (notRunningMsg containerId) := by
      simpa [watchIteration, hany] using hres
    exact absurd this (sidecarStatus_ne_notRunning _ _ _)
  · rintro ⟨fp, ce, se, wr⟩ hsome
    rcases wr with _ | m
    · cases hsome
    · cases fp <;> cases ce <;> cases se <;>
        simp [launchTrace, monitorTrace, failTaskTrace, finishTaskTrace]
  · intro rest m
    rfl

/-- Witness for C5: an empty listing yields the not-running error. -/
theorem container_not_running_iff_witness :
    watchIteration (.ok []) (fun _ => .ok none) "host-a" "abc" =
      .err (notRunningMsg "abc") := by
  exact (container_not_running_iff [] (fun _ => .ok none) "host-a" "abc").1.mpr
    (by simp)

/-- C7: a launch whose create or start call errors reports Failed,
issues the create call exactly once and the start call at most once (no
retry), and starts neither the watch loop, nor the monitor, nor the log
relay (the relay is in fact never started by any launch). -/
theorem launch_failure_no_retry (env : LaunchEnv)
    (h : env.createErr = true ∨ env.startErr = true) :
    Event.report .failed ∈ launchTrace env ∧
    countTerminal (launchTrace env) = 1 ∧
    (launchTrace env).count Event.createContainer = 1 ∧
    (launchTrace env).count Event.startContainer ≤ 1 ∧
    Event.startWatcher ∉ launchTrace env ∧
    Event.startMonitor ∉ launchTrace env ∧
    Event.startLogRelay ∉ launchTrace env ∧
    (env.createErr = true → Event.startContainer ∉ launchTrace env) := by
  obtain ⟨fp, ce, se, wr⟩ := env
  cases ce
  · cases se
    · rcases h with h | h <;> cases h
    · cases fp <;> rcases wr with _ | m <;>
        simp +decide [launchTrace, monitorTrace, failTaskTrace,
          finishTaskTrace, countTerminal, isTerminalReport, isReport,
          TaskState.isTerminal, List.filter, List.count_cons, List.count_nil]
  · cases fp <;> cases se <;> rcases wr with _ | m <;>
      simp +decide [launchTrace, monitorTrace, failTaskTrace,
        finishTaskTrace, countTerminal, isTerminalReport, isReport,
        TaskState.isTerminal, List.filter, List.count_cons, List.count_nil]

/-- Witness for C7 at a launch whose create call fails. -/
theorem launch_failure_no_retry_witness :
    Event.report .failed ∈ launchTrace ⟨false, true, false, none⟩ ∧
    Event.startWatcher ∉ launchTrace ⟨false, true, false, none⟩ := by
  have h := launch_failure_no_retry ⟨false, true, false, none⟩ (Or.inl rfl)
  exact ⟨h.1, h.2.2.2.2.1⟩

/-- C8: in every launch trace the Running report occurs strictly before
the container create call and before any forced image pull. -/
theorem running_reported_before_create (env : LaunchEnv) :
    (launchTrace env).indexOf (Event.report .running) <
      (launchTrace env).indexOf Event.createContainer ∧
    (launchTrace env).indexOf (Event.report .running) <
      (launchTrace env).indexOf Event.pullImage := by
  obtain ⟨fp, ce, se, wr⟩ := env
  cases fp <;> cases ce <;> cases se <;> rcases wr with _ | m <;>
    first
      | decide
      | simp +decide [launchTrace, monitorTrace, failTaskTrace,
          finishTaskTrace]

/-- C10: both runtime calls of the kill path target the Mesos task id
string: every Stop and Inspect event in a kill trace carries exactly the
task id, so the kill path touches the launched container only when that
container id equals the task id. -/
theorem killTask_targets_taskId (env : KillEnv) :
    (∀ cid t, Event.stopContainer cid t ∈ killTrace env →
      cid = env.taskId ∧ t = KillTaskTimeout) ∧
    (∀ cid, Event.inspectContainer cid ∈ killTrace env → cid = env.taskId) ∧
    (∀ launchedId : String,
      Event.stopContainer launchedId KillTaskTimeout ∈ killTrace env ↔
        launchedId = env.taskId) := by
  obtain ⟨tid, serr, insp⟩ := env
  refine ⟨?_, ?_, ?_⟩
  · intro cid t hmem
    simp [killTrace] at hmem
    exact ⟨hmem.1, hmem.2⟩
  · intro cid hmem
    simp [killTrace] at hmem
    exact hmem
  · intro launchedId
    constructor
    · intro hmem
      simp [killTrace] at hmem
      exact hmem
    · rintro rfl
      simp [killTrace]

/-- Witness for C10: the Stop event of a concrete kill trace carries the
task id. -/
theorem killTask_targets_taskId_witness :
    Event.stopContainer "task-1" KillTaskTimeout ∈
      killTrace ⟨"task-1", false, none⟩ :=
  ((killTask_targets_taskId ⟨"task-1", false, none⟩).2.2 "task-1").mpr rfl

theorem stdout_pump_forwards_aux (lines : List String) (k : Nat) :
    handleOneStreamGo "stdout" (fun _ => false) lines k =
      lines.map (fun t => (LogLevel.info, t)) := by
  induction lines generalizing k with
  | nil => rfl
  | cons t rest ih => simp [handleOneStreamGo, ih]

/-- C9: a pump started with a stream name other than stdout or stderr
forwards no line at all; the two pumps of the relay are separate calls
sharing only the quit observations, so the sibling stderr pump result is
untouched by it, and a pump whose quit signal never fires forwards its
whole stream. -/
theorem unknown_stream_pump_silent (name : String) (quit quitSib : Nat → Bool)
    (lines sibLines : List String)
    (h1 : name ≠ "stdout") (h2 : name ≠ "stderr") :
    handleOneStream name quit lines = [] ∧
    relayPumps quitSib quit sibLines lines =
      (handleOneStream "stdout" quitSib sibLines,
       handleOneStream "stderr" quit lines) ∧
    handleOneStream "stdout" (fun _ => false) sibLines =
      sibLines.map (fun t => (LogLevel.info, t)) := by
  refine ⟨?_, rfl, stdout_pump_forwards_aux sibLines 0⟩
  cases lines with
  | nil => rfl
  | cons t rest => simp [handleOneStream, handleOneStreamGo, h1, h2]

/-- Witness for C9 at a concrete unknown stream name. -/
theorem unknown_stream_pump_silent_witness :
    handleOneStream "combined" (fun _ => false) ["line one", "line two"] =
      [] :=
  (unknown_stream_pump_silent "combined" (fun _ => false) (fun _ => false)
    ["line one", "line two"] [] (by decide) (by decide)).1

end SidecarExec
